import Mathlib

/-!
Shallow embedding of the inventory-threshold and reorder-alert engine of
`flask-server/app.py` (Demand_forecast repository).

Quantities, costs and stock levels are modelled as rationals (`Rat`);
SQL tables become Lean lists of rows; `DATE(usage_date)` becomes an
abstract calendar-day index (`Nat`), and ISO-timestamp comparisons
(`usage_date >= cutoff`) become `Nat` comparisons on that index.
-/

/-- Row of the `materials` table (the fields the core logic reads). -/
structure Material where
  id : Nat
  name : String
  unit_cost : Rat
deriving DecidableEq, Repr

/-- Row of the `material_usage` table.  `day` is `DATE(usage_date)`;
a negative `quantity_used` is a forecast reservation. -/
structure UsageEntry where
  material_id : Nat
  project_id : Nat
  day : Nat
  quantity_used : Rat
deriving DecidableEq, Repr

/-- Row of the `material_deliveries` table; `project_id = none` models a
SQL NULL (warehouse-level delivery not linked to a project). -/
structure DeliveryEntry where
  material_id : Nat
  project_id : Option Nat
  quantity_delivered : Rat
  unit_cost : Rat
deriving DecidableEq, Repr

/-- Row of the `inventory` table (one per material). -/
structure InventoryRecord where
  material_id : Nat
  current_stock : Rat
  reserved_stock : Rat
  reorder_point : Rat
deriving DecidableEq, Repr

/-- Row of the `reorder_alerts` table.  `acknowledged_by`/`acknowledged_at`
are NULL (`none`) on rows written by the upsert statement, which lists
neither column. -/
structure AlertRow where
  id : Nat
  material_id : Nat
  project_id : Nat
  alert_type : String
  current_stock : Rat
  reorder_point : Rat
  suggested_order_quantity : Rat
  priority : String
  status : String
  created_at : Nat
  acknowledged_by : Option Nat
  acknowledged_at : Option Nat
deriving DecidableEq, Repr

/-- The database state read and written by the core logic. -/
structure DBState where
  materials : List Material
  material_usage : List UsageEntry
  material_deliveries : List DeliveryEntry
  inventory : List InventoryRecord
  reorder_alerts : List AlertRow
deriving DecidableEq, Repr

def emptyState : DBState := ⟨[], [], [], [], []⟩

/-- `MATERIAL_DEFAULTS` dictionary (app.py lines 288-296): per-material
lead-time days. -/
def MATERIAL_DEFAULTS : List (String × Nat) :=
  [("steel", 75), ("conductor", 90), ("transformers", 75), ("earthwire", 75),
   ("foundation", 75), ("reactors", 75), ("tower", 75)]

/-- `MATERIAL_DEFAULTS.get(name, dflt)`. -/
def materialDefaultsGet (name : String) (dflt : Nat) : Nat :=
  match MATERIAL_DEFAULTS.lookup name with
  | some v => v
  | none => dflt

/-- Python's `str.lower()` on the ASCII material names. -/
def pyLower (t : String) : String := ⟨t.data.map Char.toLower⟩

/-- `SELECT name FROM materials WHERE id = ?` followed by
`str(name_row[0]).lower() if name_row and name_row[0] else ''`. -/
def materialName (s : DBState) (material_id : Nat) : String :=
  match s.materials.find? (fun m => m.id == material_id) with
  | some m => pyLower m.name
  | none => ""

/-- Usage rows of one (material, project) pair
(`WHERE material_id = ? AND project_id = ?`). -/
def usageFor (s : DBState) (material_id project_id : Nat) : List UsageEntry :=
  s.material_usage.filter (fun u => u.material_id == material_id && u.project_id == project_id)

/-- `CASE WHEN quantity_used > 0 THEN quantity_used ELSE 0 END`. -/
def posUsage (q : Rat) : Rat := if 0 < q then q else 0

instance {ε α : Type} [DecidableEq ε] [DecidableEq α] : DecidableEq (Except ε α) := fun x y =>
  match x, y with
  | .ok a, .ok b =>
    if h : a = b then isTrue (by rw [h]) else
      isFalse (fun hc => h (by injection hc))
  | .error a, .error b =>
    if h : a = b then isTrue (by rw [h]) else
      isFalse (fun hc => h (by injection hc))
  | .ok _, .error _ => isFalse (fun hc => Except.noConfusion hc)
  | .error _, .ok _ => isFalse (fun hc => Except.noConfusion hc)

/-- The distinct values of `DATE(usage_date)` among the pair's usage rows:
the groups produced by `GROUP BY DATE(usage_date)` (no quantity filter, so
days whose entries are all non-positive still form a group). -/
def usageDays (s : DBState) (material_id project_id : Nat) : List Nat :=
  ((usageFor s material_id project_id).map (·.day)).dedup

/-- One group's `SUM(CASE WHEN quantity_used > 0 THEN quantity_used ELSE 0 END)`. -/
def dailyUsed (s : DBState) (material_id project_id d : Nat) : Rat :=
  (((usageFor s material_id project_id).filter (fun u => u.day == d)).map
    (fun u => posUsage u.quantity_used)).sum

/-- `SELECT AVG(daily_used) FROM (...)` with `float(... or 0)`:
the mean of the per-day positive sums over the days that have usage rows,
or 0 when the pair has no usage rows at all. -/
def avgDailySql (s : DBState) (material_id project_id : Nat) : Rat :=
  let days := usageDays s material_id project_id
  if days.isEmpty then 0
  else ((days.map (dailyUsed s material_id project_id)).sum) / (days.length : Rat)

/-- `compute_project_threshold` (app.py lines 314-347).  The
`lookback_days` parameter is accepted but, as in the source, never read. -/
def compute_project_threshold (s : DBState) (material_id project_id : Nat)
    (lookback_days : Nat) (safety_buffer_ratio : Rat) : Rat :=
  if project_id == 0 then 0
  else
    let avg_daily := avgDailySql s material_id project_id
    let lead_days : Int := (materialDefaultsGet (materialName s material_id) 90 : Int)
    let effective_days : Int := max (lead_days + 3) 0
    avg_daily * (effective_days : Rat) * (1 + safety_buffer_ratio)

/-- `compute_project_avg_daily` (app.py lines 349-368): total positive
usage divided by the number of positive usage rows (per-entry average).
`lookback_days` is accepted but, as in the source, never read. -/
def compute_project_avg_daily (s : DBState) (material_id project_id : Nat)
    (lookback_days : Nat) : Rat :=
  if project_id == 0 then 0
  else
    let es := usageFor s material_id project_id
    let total_used := (es.map (fun u => posUsage u.quantity_used)).sum
    let num_entries := (es.filter (fun u => 0 < u.quantity_used)).length
    if 0 < num_entries then total_used / (num_entries : Rat) else 0

/-- `SELECT COUNT(1) FROM material_deliveries WHERE material_id = ?`
(any project, NULL included). -/
def deliveriesCountAny (s : DBState) (material_id : Nat) : Nat :=
  s.material_deliveries.countP (fun d => d.material_id == material_id)

/-- `SELECT COUNT(1) FROM material_deliveries WHERE material_id = ? AND
project_id = ?` (SQL equality excludes NULL-project rows). -/
def deliveriesCountPair (s : DBState) (material_id project_id : Nat) : Nat :=
  s.material_deliveries.countP
    (fun d => d.material_id == material_id && d.project_id == some project_id)

/-- `SELECT COALESCE(SUM(quantity_delivered),0) ... WHERE material_id = ?
AND project_id = ?`. -/
def deliveredSum (s : DBState) (material_id project_id : Nat) : Rat :=
  ((s.material_deliveries.filter
      (fun d => d.material_id == material_id && d.project_id == some project_id)).map
    (·.quantity_delivered)).sum

/-- `SELECT COALESCE(SUM(quantity_used),0) ... WHERE material_id = ? AND
project_id = ?` (all signs, reservations included). -/
def usedSum (s : DBState) (material_id project_id : Nat) : Rat :=
  ((usageFor s material_id project_id).map (·.quantity_used)).sum

/-- `project_current_stock = float(delivered_sum) - float(used_sum)`. -/
def projectCurrentStock (s : DBState) (material_id project_id : Nat) : Rat :=
  deliveredSum s material_id project_id - usedSum s material_id project_id

/-- The suggested-order computation shared by both alert call sites
(app.py lines 2047-2059 with default 90, and 2548-2556 with default 75):
`max(compute_project_avg_daily * max(lead_days + 4, 0), 0)`. -/
def suggestedQty (s : DBState) (material_id project_id : Nat) (dflt : Nat) : Rat :=
  let lead_days : Int := (materialDefaultsGet (materialName s material_id) dflt : Int)
  let target_for_lead :=
    compute_project_avg_daily s material_id project_id 30 * ((max (lead_days + 4) 0 : Int) : Rat)
  max target_for_lead 0

/-- The snapshot fields written into a `reorder_alerts` row by one upsert. -/
structure AlertSnap where
  alert_type : String
  current_stock : Rat
  reorder_point : Rat
  suggested_order_quantity : Rat
  priority : String
deriving DecidableEq, Repr

/-- The id subquery `SELECT id FROM reorder_alerts WHERE material_id = ?
AND project_id = ? AND status = 'active' LIMIT 1`. -/
def findActiveAlertId (alerts : List AlertRow) (material_id project_id : Nat) : Option Nat :=
  (alerts.find? (fun a =>
    a.material_id == material_id && a.project_id == project_id && a.status == "active")).map (·.id)

/-- SQLite assigns `max(id)+1` when the INTEGER PRIMARY KEY is NULL. -/
def freshAlertId (alerts : List AlertRow) : Nat :=
  (alerts.map (·.id)).foldr max 0 + 1

/-- `INSERT OR REPLACE INTO reorder_alerts (id, ...) VALUES ((SELECT id
... status = 'active' LIMIT 1), ..., 'active', ?)` — the upsert used by
both alert call sites: replace the existing active row for the pair in
place if there is one, else insert a fresh row; the written row has
status `active` and NULL acknowledgement columns. -/
def upsertAlert (alerts : List AlertRow) (material_id project_id : Nat)
    (sn : AlertSnap) (now : Nat) : List AlertRow :=
  let newId := match findActiveAlertId alerts material_id project_id with
    | some i => i
    | none => freshAlertId alerts
  let row : AlertRow :=
    ⟨newId, material_id, project_id, sn.alert_type, sn.current_stock, sn.reorder_point,
     sn.suggested_order_quantity, sn.priority, "active", now, none, none⟩
  (alerts.filter (fun a => a.id != newId)) ++ [row]

/-- Number of `active` rows of one (material, project) pair. -/
def activeCount (alerts : List AlertRow) (material_id project_id : Nat) : Nat :=
  alerts.countP (fun a =>
    a.material_id == material_id && a.project_id == project_id && a.status == "active")

/-- Snapshot written by the usage-logging call site (app.py lines
2062-2080): `alert_type` is the constant 'low_stock', priority is
'high'/'medium' by sign of stock, lead-time fallback 90. -/
def logSnap (s : DBState) (material_id project_id : Nat) : AlertSnap :=
  let pcs := projectCurrentStock s material_id project_id
  { alert_type := "low_stock"
    current_stock := pcs
    reorder_point := compute_project_threshold s material_id project_id 30 (1/10)
    suggested_order_quantity := suggestedQty s material_id project_id 90
    priority := if pcs ≤ 0 then "high" else "medium" }

/-- Snapshot written by the periodic sweep (app.py lines 2544-2579):
'stockout'/'low_stock' and 'critical'/'high' by sign of stock,
lead-time fallback 75. -/
def sweepSnap (s : DBState) (material_id project_id : Nat) : AlertSnap :=
  let pcs := projectCurrentStock s material_id project_id
  { alert_type := if pcs ≤ 0 then "stockout" else "low_stock"
    current_stock := pcs
    reorder_point := compute_project_threshold s material_id project_id 30 (1/10)
    suggested_order_quantity := suggestedQty s material_id project_id 75
    priority := if pcs ≤ 0 then "critical" else "high" }

/-- The alert-evaluation tail of `log_material_usage` (app.py lines
2021-2081), run on the state that already contains the new usage row:
gate on at least one delivery for the pair, then upsert only when
`project_current_stock < threshold and threshold > 0`. -/
def logUsageAlertCheck (s : DBState) (material_id project_id now : Nat) : List AlertRow :=
  if deliveriesCountPair s material_id project_id == 0 then s.reorder_alerts
  else if projectCurrentStock s material_id project_id
            < compute_project_threshold s material_id project_id 30 (1/10)
          ∧ 0 < compute_project_threshold s material_id project_id 30 (1/10) then
    upsertAlert s.reorder_alerts material_id project_id (logSnap s material_id project_id) now
  else s.reorder_alerts

/-- Request body of `POST /inventory/usage`. -/
structure UsageRequest where
  project_id : Nat
  material_id : Nat
  quantity_used : Rat
  logged_by : Nat
deriving DecidableEq, Repr

/-- Result of a write endpoint: the state after the handler, and either
the error message of a 4xx response or the returned `total_cost`. -/
structure LogResult where
  state : DBState
  response : Except String Rat
deriving DecidableEq, Repr

/-- The `INSERT INTO material_usage` of `log_material_usage`: the usage
row is appended unconditionally. -/
def logUsageInsert (s : DBState) (req : UsageRequest) (day : Nat) : DBState :=
  { s with material_usage :=
      s.material_usage ++ [⟨req.material_id, req.project_id, day, req.quantity_used⟩] }

/-- The conditional `UPDATE inventory SET current_stock = current_stock -
?` of `log_material_usage` (app.py lines 2005-2017): the global counter
is decremented only when the material already has at least one delivery
row (any project). -/
def logUsageStockUpdate (s1 : DBState) (material_id : Nat) (quantity_used : Rat) : DBState :=
  if 0 < deliveriesCountAny s1 material_id then
    { s1 with inventory := s1.inventory.map (fun r =>
        if r.material_id == material_id then
          { r with current_stock := r.current_stock - quantity_used }
        else r) }
  else s1

/-- The state produced by a successful `log_material_usage`: insert the
usage row, conditionally decrement global stock, then run the alert tail
on the committed state. -/
def logUsageFinalState (s : DBState) (req : UsageRequest) (day now : Nat) : DBState :=
  let s2 := logUsageStockUpdate (logUsageInsert s req day) req.material_id req.quantity_used
  { s2 with reorder_alerts := logUsageAlertCheck s2 req.material_id req.project_id now }

/-- `log_material_usage` (app.py lines 1971-2093).  Python's
`not all([...])` rejects any zero (falsy) field, including a zero
quantity; a missing material row is a 404 before any write. -/
def log_material_usage (s : DBState) (req : UsageRequest) (day now : Nat) : LogResult :=
  if req.project_id == 0 || req.material_id == 0 || req.quantity_used == 0 || req.logged_by == 0 then
    ⟨s, .error "Missing required fields"⟩
  else
    match s.materials.find? (fun m => m.id == req.material_id) with
    | none => ⟨s, .error "Material not found"⟩
    | some mat => ⟨logUsageFinalState s req day now, .ok (req.quantity_used * mat.unit_cost)⟩

/-- Request body of `POST /inventory/delivery`. -/
structure DeliveryRequest where
  material_id : Nat
  project_id : Option Nat
  quantity_delivered : Rat
  received_by : Nat
  unit_cost : Option Rat
deriving DecidableEq, Repr

/-- The effective unit cost of `log_material_delivery`: Python's
`if not unit_cost` falls back to the material master cost when the field
is absent *or zero* (falsiness), and to 0 when the material row is
absent. -/
def deliveryUnitCost (s : DBState) (req : DeliveryRequest) : Rat :=
  if req.unit_cost.getD 0 == 0 then
    match s.materials.find? (fun m => m.id == req.material_id) with
    | some m => m.unit_cost
    | none => 0
  else req.unit_cost.getD 0

/-- The `INSERT INTO material_deliveries` of `log_material_delivery`. -/
def logDeliveryInsert (s : DBState) (req : DeliveryRequest) : DBState :=
  { s with material_deliveries :=
      s.material_deliveries
        ++ [⟨req.material_id, req.project_id, req.quantity_delivered, deliveryUnitCost s req⟩] }

/-- The `UPDATE inventory SET current_stock = current_stock + ?` of
`log_material_delivery`, followed by the `cur.rowcount == 0` INSERT of a
fresh inventory row (reorder point 0) when no row was matched. -/
def logDeliveryInventoryUpdate (s1 : DBState) (material_id : Nat)
    (quantity_delivered : Rat) : DBState :=
  if s1.inventory.countP (fun r => r.material_id == material_id) == 0 then
    { s1 with inventory := s1.inventory ++ [⟨material_id, quantity_delivered, 0, 0⟩] }
  else
    { s1 with inventory := s1.inventory.map (fun r =>
        if r.material_id == material_id then
          { r with current_stock := r.current_stock + quantity_delivered }
        else r) }

/-- `log_material_delivery` (app.py lines 2095-2159): validate, resolve
the unit cost, append the ledger row, update (or create) the inventory
row, and return `total_cost = quantity_delivered * unit_cost`. -/
def log_material_delivery (s : DBState) (req : DeliveryRequest) : LogResult :=
  if req.material_id == 0 || req.quantity_delivered == 0 || req.received_by == 0 then
    ⟨s, .error "Missing required fields"⟩
  else
    ⟨logDeliveryInventoryUpdate (logDeliveryInsert s req) req.material_id req.quantity_delivered,
     .ok (req.quantity_delivered * deliveryUnitCost s req)⟩

/-- Result of `PUT /inventory/alerts/<id>/acknowledge`: state, the
UPDATE's row count, and the HTTP response body. -/
structure AckResult where
  state : DBState
  rowcount : Nat
  response : Except String String
deriving DecidableEq, Repr

/-- `acknowledge_alert` (app.py lines 2248-2275).  The UPDATE has no
status filter and the handler returns the success message without
inspecting `cur.rowcount`. -/
def acknowledge_alert (s : DBState) (alert_id acknowledged_by now : Nat) : AckResult :=
  if acknowledged_by == 0 then ⟨s, 0, .error "acknowledged_by is required"⟩
  else
    let updated := s.reorder_alerts.map (fun a =>
      if a.id == alert_id then
        { a with status := "acknowledged",
                 acknowledged_by := some acknowledged_by,
                 acknowledged_at := some now }
      else a)
    ⟨{ s with reorder_alerts := updated },
     s.reorder_alerts.countP (fun a => a.id == alert_id),
     .ok "Alert acknowledged successfully"⟩

/-- `COUNT(1) ... WHERE material_id = ? AND project_id = ? AND
usage_date >= ? AND quantity_used > 0` (sweep's recent-activity gate). -/
def recentUsageCount (s : DBState) (material_id project_id cutoff : Nat) : Nat :=
  s.material_usage.countP (fun u =>
    u.material_id == material_id && u.project_id == project_id &&
    cutoff ≤ u.day && decide (0 < u.quantity_used))

/-- `SELECT reserved_stock FROM inventory WHERE material_id = ?` with
`rr[0] if rr and rr[0] is not None else 0`. -/
def reservedStockOf (s : DBState) (material_id : Nat) : Rat :=
  match s.inventory.find? (fun r => r.material_id == material_id) with
  | some r => r.reserved_stock
  | none => 0

/-- One (material, project) iteration of the sweep loop body of
`check_inventory_alerts` (app.py lines 2513-2579): skip without a
delivery for the pair, skip a dormant pair (no positive usage in the
window and no positive warehouse `reserved_stock`), skip when the
threshold is non-positive, and otherwise upsert when stock is below
threshold. -/
def sweepPairStep (s : DBState) (material_id project_id cutoff now : Nat) : DBState :=
  if deliveriesCountPair s material_id project_id == 0 then s
  else if recentUsageCount s material_id project_id cutoff == 0
          ∧ reservedStockOf s material_id ≤ 0 then s
  else if compute_project_threshold s material_id project_id 30 (1/10) ≤ 0 then s
  else if projectCurrentStock s material_id project_id
          < compute_project_threshold s material_id project_id 30 (1/10) then
    { s with reorder_alerts :=
        upsertAlert s.reorder_alerts material_id project_id (sweepSnap s material_id project_id) now }
  else s

/-- One material's iteration inside the sweep, as seen from the single
`try`/`except` of `check_inventory_alerts`: either it completes and
yields a state transformer (its alert writes), or it raises. -/
abbrev SweepStep := Except String (DBState → DBState)

/-- Run the sweep loop body inside the single `try`: apply each
completed step in order, stopping at the first raised exception. -/
def applySteps : List SweepStep → DBState → Except String DBState
  | [], s => .ok s
  | (Except.error e) :: _, _ => .error e
  | (Except.ok f) :: rest, s => applySteps rest (f s)

/-- `check_inventory_alerts`'s overall control flow (app.py lines
2482-2585): the whole loop and the final `conn.commit()` sit inside one
`try`; an exception anywhere skips the commit (the sweep's uncommitted
writes are discarded) and is only logged. -/
def check_inventory_alerts_run (steps : List SweepStep) (s : DBState) : DBState :=
  match applySteps steps s with
  | .ok s1 => s1
  | .error _ => s

/-! ## Formalisations of the specification's wording -/

/-- C1 as stated: the calendar days that carry at least one *positive*
usage entry of the pair. -/
def posUsageDays (s : DBState) (material_id project_id : Nat) : List Nat :=
  (((usageFor s material_id project_id).filter (fun u => 0 < u.quantity_used)).map (·.day)).dedup

/-- C1 as stated: the mean of the per-day positive sums taken only over
the days that have positive usage. -/
def claimAvgDailyC1 (s : DBState) (material_id project_id : Nat) : Rat :=
  let days := posUsageDays s material_id project_id
  if days.isEmpty then 0
  else ((days.map (dailyUsed s material_id project_id)).sum) / (days.length : Rat)

/-- C1 as stated: `avgDaily * max(leadDays + 3, 0) * (1 + safetyBufferRatio)`
with `avgDaily` averaging only over positive-usage days. -/
def claimThresholdC1 (s : DBState) (material_id project_id : Nat)
    (safety_buffer_ratio : Rat) : Rat :=
  claimAvgDailyC1 s material_id project_id *
    ((max ((materialDefaultsGet (materialName s material_id) 90 : Int) + 3) 0 : Int) : Rat) *
    (1 + safety_buffer_ratio)

/-- C1 amended: the average is the total positive usage divided by the
number of distinct calendar days carrying at least one usage entry of
*any* sign (a day whose entries are all non-positive contributes a zero
to the mean; only days with no entries at all are excluded). -/
def amendedAvgDailyC1 (s : DBState) (material_id project_id : Nat) : Rat :=
  let es := usageFor s material_id project_id
  if es.isEmpty then 0
  else ((es.map (fun u => posUsage u.quantity_used)).sum) / (((es.map (·.day)).dedup.length : Nat) : Rat)

/-- C1 amended: the threshold formula over the amended average. -/
def amendedThresholdC1 (s : DBState) (material_id project_id : Nat)
    (safety_buffer_ratio : Rat) : Rat :=
  amendedAvgDailyC1 s material_id project_id *
    ((max ((materialDefaultsGet (materialName s material_id) 90 : Int) + 3) 0 : Int) : Rat) *
    (1 + safety_buffer_ratio)

/-- C4 as stated: `totalPositiveUsage / countOfPositiveUsageEntries`, the
per-logged-entry average over the pair's positive usage entries. -/
def claimAvgRate (s : DBState) (material_id project_id : Nat) : Rat :=
  let pos := (usageFor s material_id project_id).filter (fun u => 0 < u.quantity_used)
  if pos.isEmpty then 0 else ((pos.map (·.quantity_used)).sum) / (pos.length : Rat)

/-- An alert-evaluation trigger: either the inline evaluation at the end
of a `POST /inventory/usage` request, or one (material, project)
iteration of the periodic sweep. -/
inductive EvalOp where
  | usage (req : UsageRequest) (day now : Nat)
  | sweep (material_id project_id cutoff now : Nat)
deriving Repr

/-- Apply one alert-evaluation trigger to the database state. -/
def applyOp (s : DBState) : EvalOp → DBState
  | .usage req day now => (log_material_usage s req day now).state
  | .sweep material_id project_id cutoff now => sweepPairStep s material_id project_id cutoff now

/-- Counterexample state for C1: material 1 ("Steel") on project 1 with a
positive usage of 10 on day 0 and a reservation entry (-5) alone on day 1. -/
def stateC1 : DBState :=
  { materials := [⟨1, "Steel", 5⟩]
    material_usage := [⟨1, 1, 0, 10⟩, ⟨1, 1, 1, -5⟩]
    material_deliveries := []
    inventory := []
    reorder_alerts := [] }

/-- The `current_stock` column of the material's inventory row (absent
when the material has no inventory row). -/
def currentStockOf (s : DBState) (material_id : Nat) : Option Rat :=
  (s.inventory.find? (fun r => r.material_id == material_id)).map (·.current_stock)

/-- State with usage but no deliveries: exercises the delivery gates. -/
def stateC5 : DBState :=
  { materials := [⟨1, "Steel", 5⟩]
    material_usage := [⟨1, 1, 0, 50⟩]
    material_deliveries := []
    inventory := [⟨1, 0, 0, 0⟩]
    reorder_alerts := [] }

/-- State with one material, an inventory row of 7, and no deliveries. -/
def stateC8 : DBState :=
  { materials := [⟨1, "Steel", 5⟩]
    material_usage := []
    material_deliveries := []
    inventory := [⟨1, 7, 0, 0⟩]
    reorder_alerts := [] }

/-- State with one material and no inventory record. -/
def stateC9 : DBState :=
  { materials := [⟨2, "Conductor", 7⟩]
    material_usage := []
    material_deliveries := []
    inventory := []
    reorder_alerts := [] }

/-- A concrete active alert row used to exercise the upsert. -/
def alertRowA : AlertRow := ⟨1, 1, 1, "low_stock", 0, 10, 5, "high", "active", 0, none, none⟩

/-- A concrete snapshot used to exercise the upsert. -/
def snapA : AlertSnap := ⟨"low_stock", -1, 10, 5, "high"⟩

/-- Triggering state for the sweep path: delivery of 10 and usage of 20
already logged for (material 1 "Steel", project 1), so stock is -10 and
the threshold 1716 is positive. -/
def stateC3 : DBState :=
  { materials := [⟨1, "Steel", 5⟩]
    material_usage := [⟨1, 1, 0, 20⟩]
    material_deliveries := [⟨1, some 1, 10, 5⟩]
    inventory := []
    reorder_alerts := [] }

/-- Pre-state for the usage-logging path: delivery of 10 logged, about to
log a usage of 20 that drives project stock to -10. -/
def stateC3pre : DBState :=
  { materials := [⟨1, "Steel", 5⟩]
    material_usage := []
    material_deliveries := [⟨1, some 1, 10, 5⟩]
    inventory := [⟨1, 10, 0, 0⟩]
    reorder_alerts := [] }

/-- The usage request that drives `stateC3pre` to negative project stock. -/
def reqC3 : UsageRequest := ⟨1, 1, 20, 1⟩

/-- Three positive entries of 10, all on one calendar day. -/
def stateC4a : DBState :=
  { materials := [⟨1, "Steel", 5⟩]
    material_usage := [⟨1, 1, 0, 10⟩, ⟨1, 1, 0, 10⟩, ⟨1, 1, 0, 10⟩]
    material_deliveries := []
    inventory := []
    reorder_alerts := [] }

/-- The same three positive entries of 10, spread over three days. -/
def stateC4b : DBState :=
  { materials := [⟨1, "Steel", 5⟩]
    material_usage := [⟨1, 1, 0, 10⟩, ⟨1, 1, 1, 10⟩, ⟨1, 1, 2, 10⟩]
    material_deliveries := []
    inventory := []
    reorder_alerts := [] }

/-- A concrete sweep iteration that, when it runs, writes one alert row. -/
def sweepWriteStep : DBState → DBState := fun s => { s with reorder_alerts := [alertRowA] }

/-! ## Helper lemmas -/

lemma sum_map_ite_eq_zero_of_not_mem {β : Type} [DecidableEq β] (ds : List β) (b : β)
    (x : Rat) (hb : b ∉ ds) :
    (ds.map (fun d => if b = d then x else 0)).sum = 0 := by
  induction ds with
  | nil => simp
  | cons d ds ih =>
    have hbd : b ≠ d := fun h => hb (h ▸ List.mem_cons_self d ds)
    have hbds : b ∉ ds := fun h => hb (List.mem_cons_of_mem _ h)
    simp [hbd, ih hbds]

lemma sum_map_ite_eq_of_nodup {β : Type} [DecidableEq β] (ds : List β) (b : β)
    (x : Rat) (hnd : ds.Nodup) (hb : b ∈ ds) :
    (ds.map (fun d => if b = d then x else 0)).sum = x := by
  induction ds with
  | nil => cases hb
  | cons d ds ih =>
    rcases List.mem_cons.mp hb with h | h
    · subst h
      simp [sum_map_ite_eq_zero_of_not_mem ds b x (List.nodup_cons.mp hnd).1]
    · have hbd : b ≠ d := by
        rintro rfl; exact (List.nodup_cons.mp hnd).1 h
      simp [hbd, ih (List.nodup_cons.mp hnd).2 h]

/-- Summing per-group sums over a duplicate-free, covering list of group
keys gives the total sum (the `GROUP BY` partition identity). -/
lemma sum_groups_of_nodup {α β : Type} [DecidableEq β] (l : List α) (key : α → β)
    (f : α → Rat) (ds : List β) (hnd : ds.Nodup) (hcov : ∀ a ∈ l, key a ∈ ds) :
    (ds.map (fun d => ((l.filter (fun a => key a == d)).map f).sum)).sum = (l.map f).sum := by
  induction l with
  | nil => simp
  | cons a l ih =>
    have hcov' : ∀ x ∈ l, key x ∈ ds := fun x hx => hcov x (List.mem_cons_of_mem _ hx)
    have hsplit : ∀ d : β, ((((a :: l).filter (fun x => key x == d)).map f).sum)
        = (if key a = d then f a else 0) + ((l.filter (fun x => key x == d)).map f).sum := by
      intro d
      by_cases h : key a = d <;> simp [List.filter_cons, h]
    calc (ds.map (fun d => (((a :: l).filter (fun x => key x == d)).map f).sum)).sum
        = (ds.map (fun d => (if key a = d then f a else 0)
            + ((l.filter (fun x => key x == d)).map f).sum)).sum := by
          exact congrArg List.sum (List.map_congr_left (fun d _ => hsplit d))
      _ = (ds.map (fun d => if key a = d then f a else 0)).sum
            + (ds.map (fun d => ((l.filter (fun x => key x == d)).map f).sum)).sum := by
          rw [← List.sum_map_add]
      _ = f a + (l.map f).sum := by
          rw [sum_map_ite_eq_of_nodup ds (key a) (f a) hnd (hcov a (List.mem_cons_self a l)),
            ih hcov']
      _ = ((a :: l).map f).sum := by simp

/-- The `GROUP BY DATE(usage_date)` identity for `avgDailySql`'s numerator. -/
lemma sum_dailyUsed_eq_total (s : DBState) (material_id project_id : Nat) :
    ((usageDays s material_id project_id).map (dailyUsed s material_id project_id)).sum
      = ((usageFor s material_id project_id).map (fun u => posUsage u.quantity_used)).sum := by
  apply sum_groups_of_nodup
  · exact List.nodup_dedup _
  · intro a ha
    exact List.mem_dedup.mpr (List.mem_map_of_mem (·.day) ha)

/-- The SQL average equals the amended formula: total positive usage over
the number of distinct entry-carrying days. -/
lemma avgDailySql_eq_amended (s : DBState) (material_id project_id : Nat) :
    avgDailySql s material_id project_id = amendedAvgDailyC1 s material_id project_id := by
  simp only [avgDailySql, amendedAvgDailyC1]
  by_cases h : usageFor s material_id project_id = []
  · simp [h, usageDays]
  · have h1 : (usageDays s material_id project_id).isEmpty = false := by
      simp [usageDays, List.isEmpty_iff, List.dedup_eq_nil, h]
    have h2 : (usageFor s material_id project_id).isEmpty = false := by
      simp [List.isEmpty_iff, h]
    rw [h1, h2]
    simp only [Bool.false_eq_true, if_false]
    rw [sum_dailyUsed_eq_total]
    rfl

/-- C1 (counterexample).  The claim says the daily average is taken only
over calendar days with positive usage; on a history with a positive
entry (day 0, quantity 10) and a reservation-only day (day 1, quantity
-5), `compute_project_threshold` returns 429 = (10+0)/2 * 78 * 1.1 —
day 1 is counted as a zero — while the claim's formula gives
858 = 10 * 78 * 1.1. -/
theorem thresholdC1_counterexample :
    compute_project_threshold stateC1 1 1 30 (1/10) = 429 ∧
    claimThresholdC1 stateC1 1 1 (1/10) = 858 ∧
    compute_project_threshold stateC1 1 1 30 (1/10) ≠ claimThresholdC1 stateC1 1 1 (1/10) := by
  have hu : stateC1.material_usage = [⟨1, 1, 0, 10⟩, ⟨1, 1, 1, -5⟩] := rfl
  have hl : materialDefaultsGet (materialName stateC1 1) 90 = 75 := by decide
  have hdays : usageDays stateC1 1 1 = [0, 1] := by decide
  have hpos : posUsageDays stateC1 1 1 = [0] := by decide
  have e1 : compute_project_threshold stateC1 1 1 30 (1/10) = 429 := by
    norm_num [compute_project_threshold, avgDailySql, hdays, dailyUsed, usageFor, hu,
      posUsage, hl]
  have e2 : claimThresholdC1 stateC1 1 1 (1/10) = 858 := by
    norm_num [claimThresholdC1, claimAvgDailyC1, hpos, dailyUsed, usageFor, hu,
      posUsage, hl]
  exact ⟨e1, e2, by rw [e1, e2]; norm_num⟩

/-- C1 (amended).  For every (material, project) pair with a non-falsy
project id, `compute_project_threshold` returns
`avgDaily * max(leadDays + 3, 0) * (1 + safetyBufferRatio)` where
`avgDaily` is the total positive usage divided by the number of distinct
calendar days carrying at least one usage entry of any sign (days with no
entries are excluded; a day whose entries are all non-positive
contributes zero to the average), and `leadDays` comes from the static
per-material defaults table with fallback 90. -/
theorem compute_project_threshold_amended (s : DBState) (material_id project_id : Nat)
    (lookback_days : Nat) (safety_buffer_ratio : Rat) (h : project_id ≠ 0) :
    compute_project_threshold s material_id project_id lookback_days safety_buffer_ratio
      = amendedThresholdC1 s material_id project_id safety_buffer_ratio := by
  simp only [compute_project_threshold, amendedThresholdC1, beq_iff_eq, h, if_false]
  rw [avgDailySql_eq_amended]

/-- Witness for the amended C1 theorem at the concrete state `stateC1`. -/
theorem compute_project_threshold_amended_witness :
    compute_project_threshold stateC1 1 1 30 (1/10) = amendedThresholdC1 stateC1 1 1 (1/10) :=
  compute_project_threshold_amended stateC1 1 1 30 (1/10) (by decide)

/-- C10.  Neither `compute_project_threshold` nor
`compute_project_avg_daily` reads its `lookback_days` parameter: both
aggregate over the pair's full usage history, so any two lookback values
give identical results. -/
theorem lookback_days_has_no_effect :
    ∀ (s : DBState) (material_id project_id lb1 lb2 : Nat) (ratio : Rat),
      compute_project_threshold s material_id project_id lb1 ratio
          = compute_project_threshold s material_id project_id lb2 ratio ∧
        compute_project_avg_daily s material_id project_id lb1
          = compute_project_avg_daily s material_id project_id lb2 :=
  fun _ _ _ _ _ _ => ⟨rfl, rfl⟩

lemma countP_split {α : Type} (l : List α) (p q : α → Bool) :
    l.countP p = l.countP (fun a => p a && q a) + l.countP (fun a => p a && !q a) := by
  induction l with
  | nil => simp
  | cons a l ih =>
    by_cases hp : p a = true
    · by_cases hq : q a = true <;> simp [List.countP_cons, hp, hq, ih] <;> omega
    · simp [List.countP_cons, hp, ih]

lemma countP_filter_le {α : Type} (l : List α) (p q : α → Bool) :
    (l.filter q).countP p ≤ l.countP p := by
  rw [List.countP_filter]
  exact List.countP_mono_left (fun a _ hx => ((Bool.and_eq_true _ _).mp hx).1)

lemma le_foldr_max (l : List Nat) (x : Nat) (hx : x ∈ l) : x ≤ l.foldr max 0 := by
  induction l with
  | nil => cases hx
  | cons a l ih =>
    rcases List.mem_cons.mp hx with h | h
    · subst h; exact Nat.le_max_left _ _
    · exact Nat.le_trans (ih h) (Nat.le_max_right _ _)

lemma freshAlertId_ne (alerts : List AlertRow) (a : AlertRow) (ha : a ∈ alerts) :
    a.id ≠ freshAlertId alerts := by
  have h := le_foldr_max (alerts.map (·.id)) a.id (List.mem_map_of_mem _ ha)
  unfold freshAlertId
  omega

/-- One upsert keeps the per-pair count of `active` rows at or below one
(for the pair being upserted it becomes exactly one; for every other pair
it cannot increase). -/
lemma activeCount_upsert_le (alerts : List AlertRow) (mid pid mid2 pid2 : Nat)
    (sn : AlertSnap) (now : Nat) (h : activeCount alerts mid pid ≤ 1) :
    activeCount (upsertAlert alerts mid2 pid2 sn now) mid pid ≤ 1 := by
  classical
  unfold activeCount at *
  set p : AlertRow → Bool := fun a =>
    a.material_id == mid && a.project_id == pid && a.status == "active" with hp
  set q : AlertRow → Bool := fun a =>
    a.material_id == mid2 && a.project_id == pid2 && a.status == "active" with hq
  cases hfind : findActiveAlertId alerts mid2 pid2 with
  | none =>
    have hqnone : alerts.find? q = none := by
      unfold findActiveAlertId at hfind
      exact Option.map_eq_none'.mp hfind
    simp only [upsertAlert, hfind]
    rw [List.countP_append, List.countP_singleton]
    have hfilter : (alerts.filter (fun a => a.id != freshAlertId alerts)) = alerts := by
      apply List.filter_eq_self.mpr
      intro a ha
      simpa using freshAlertId_ne alerts a ha
    rw [hfilter]
    by_cases hpair : mid2 = mid ∧ pid2 = pid
    · obtain ⟨rfl, rfl⟩ := hpair
      have hnone : alerts.countP p = 0 := by
        rw [List.countP_eq_zero]
        intro a ha hpa
        exact (List.find?_eq_none.mp hqnone a ha) (by rw [hq]; rw [hp] at hpa; exact hpa)
      rw [hnone]
      split <;> omega
    · have hrow : p ⟨freshAlertId alerts, mid2, pid2, sn.alert_type, sn.current_stock,
          sn.reorder_point, sn.suggested_order_quantity, sn.priority, "active",
          now, none, none⟩ = false := by
        apply Bool.eq_false_iff.mpr
        intro hc
        rw [hp] at hc
        simp only [Bool.and_eq_true, beq_iff_eq] at hc
        exact hpair ⟨hc.1.1, hc.1.2⟩
      rw [hrow]
      simp only [Bool.false_eq_true, if_false, Nat.add_zero]
      exact h
  | some i =>
    obtain ⟨f, hfeq, hfid⟩ : ∃ f, alerts.find? q = some f ∧ f.id = i := by
      unfold findActiveAlertId at hfind
      rcases Option.map_eq_some'.mp hfind with ⟨f, h1, h2⟩
      exact ⟨f, h1, h2⟩
    have hfmem : f ∈ alerts := List.mem_of_find?_eq_some hfeq
    have hfq := List.find?_some hfeq
    simp only [upsertAlert, hfind]
    rw [List.countP_append, List.countP_singleton]
    by_cases hpair : mid2 = mid ∧ pid2 = pid
    · obtain ⟨rfl, rfl⟩ := hpair
      have hpf : p f = true := by rw [hp]; rw [hq] at hfq; exact hfq
      have hone : 1 ≤ alerts.countP (fun a => p a && (a.id == i)) := by
        have hmem2 : f ∈ alerts.filter (fun a => p a && (a.id == i)) :=
          List.mem_filter.mpr ⟨hfmem, by simp [hpf, hfid]⟩
        calc 1 ≤ (alerts.filter (fun a => p a && (a.id == i))).length :=
              List.length_pos.mpr (List.ne_nil_of_mem hmem2)
          _ = alerts.countP (fun a => p a && (a.id == i)) :=
              (List.countP_eq_length_filter _ _).symm
      have hsplit := countP_split alerts p (fun a => a.id == i)
      have hzero : alerts.countP (fun a => p a && !(a.id == i)) = 0 := by omega
      have hfilter0 : (alerts.filter (fun a => a.id != i)).countP p = 0 := by
        rw [List.countP_filter]
        have hsame : alerts.countP (fun a => p a && (a.id != i))
            = alerts.countP (fun a => p a && !(a.id == i)) :=
          List.countP_congr (fun x _ => Iff.rfl)
        rw [hsame, hzero]
      rw [hfilter0]
      split <;> omega
    · have hrow : p ⟨i, mid2, pid2, sn.alert_type, sn.current_stock,
          sn.reorder_point, sn.suggested_order_quantity, sn.priority, "active",
          now, none, none⟩ = false := by
        apply Bool.eq_false_iff.mpr
        intro hc
        rw [hp] at hc
        simp only [Bool.and_eq_true, beq_iff_eq] at hc
        exact hpair ⟨hc.1.1, hc.1.2⟩
      rw [hrow]
      simp only [Bool.false_eq_true, if_false, Nat.add_zero]
      exact le_trans (countP_filter_le alerts p _) h

lemma logUsageStockUpdate_alerts (s1 : DBState) (material_id : Nat) (quantity_used : Rat) :
    (logUsageStockUpdate s1 material_id quantity_used).reorder_alerts = s1.reorder_alerts := by
  unfold logUsageStockUpdate
  split <;> rfl

lemma logUsageAlertCheck_cases (s : DBState) (mid pid now : Nat) :
    logUsageAlertCheck s mid pid now = s.reorder_alerts ∨
    logUsageAlertCheck s mid pid now
      = upsertAlert s.reorder_alerts mid pid (logSnap s mid pid) now := by
  unfold logUsageAlertCheck
  split
  · exact Or.inl rfl
  · split
    · exact Or.inr rfl
    · exact Or.inl rfl

lemma sweepPairStep_alerts_cases (s : DBState) (mid pid cutoff now : Nat) :
    (sweepPairStep s mid pid cutoff now).reorder_alerts = s.reorder_alerts ∨
    (sweepPairStep s mid pid cutoff now).reorder_alerts
      = upsertAlert s.reorder_alerts mid pid (sweepSnap s mid pid) now := by
  unfold sweepPairStep
  split
  · exact Or.inl rfl
  · split
    · exact Or.inl rfl
    · split
      · exact Or.inl rfl
      · split
        · exact Or.inr rfl
        · exact Or.inl rfl

lemma log_material_usage_alerts_cases (s : DBState) (req : UsageRequest) (day now : Nat) :
    ((log_material_usage s req day now).state).reorder_alerts = s.reorder_alerts ∨
    ∃ s2 : DBState, s2.reorder_alerts = s.reorder_alerts ∧
      ((log_material_usage s req day now).state).reorder_alerts
        = upsertAlert s.reorder_alerts req.material_id req.project_id
            (logSnap s2 req.material_id req.project_id) now := by
  unfold log_material_usage
  split
  · exact Or.inl rfl
  · split
    · exact Or.inl rfl
    · set s2 := logUsageStockUpdate (logUsageInsert s req day) req.material_id req.quantity_used
        with hs2
      have halerts : s2.reorder_alerts = s.reorder_alerts := by
        rw [hs2, logUsageStockUpdate_alerts]
        rfl
      rcases logUsageAlertCheck_cases s2 req.material_id req.project_id now with hc | hc
      · refine Or.inl ?_
        show logUsageAlertCheck s2 req.material_id req.project_id now = s.reorder_alerts
        rw [hc, halerts]
      · refine Or.inr ⟨s2, halerts, ?_⟩
        show logUsageAlertCheck s2 req.material_id req.project_id now
          = upsertAlert s.reorder_alerts req.material_id req.project_id
              (logSnap s2 req.material_id req.project_id) now
        rw [hc, halerts]

lemma applyOp_activeCount_le (s : DBState) (op : EvalOp) (mid pid : Nat)
    (h : activeCount s.reorder_alerts mid pid ≤ 1) :
    activeCount (applyOp s op).reorder_alerts mid pid ≤ 1 := by
  cases op with
  | usage req day now =>
    simp only [applyOp]
    rcases log_material_usage_alerts_cases s req day now with hc | ⟨s2, _, hc⟩
    · rw [hc]; exact h
    · rw [hc]; exact activeCount_upsert_le _ _ _ _ _ _ _ h
  | sweep mid2 pid2 cutoff now =>
    simp only [applyOp]
    rcases sweepPairStep_alerts_cases s mid2 pid2 cutoff now with hc | hc
    · rw [hc]; exact h
    · rw [hc]; exact activeCount_upsert_le _ _ _ _ _ _ _ h

/-- C2.  Repeated alert evaluations — any interleaving of inline
usage-logging evaluations and periodic-sweep iterations — starting from a
state with at most one `active` alert row for a (material, project) pair
never produce more than one `active` row for that pair; moreover the
upsert overwrites the existing active row's snapshot fields and creation
timestamp in place (same row id, acknowledgement columns reset to NULL)
when one exists, and inserts a fresh row with status `active` otherwise. -/
theorem active_alert_upsert_invariant (mid pid : Nat) :
    (∀ (s : DBState) (ops : List EvalOp),
        activeCount s.reorder_alerts mid pid ≤ 1 →
          activeCount ((ops.foldl applyOp s).reorder_alerts) mid pid ≤ 1)
    ∧ (∀ (alerts : List AlertRow) (sn : AlertSnap) (now i : Nat),
        findActiveAlertId alerts mid pid = some i →
          upsertAlert alerts mid pid sn now
            = alerts.filter (fun a => a.id != i)
              ++ [⟨i, mid, pid, sn.alert_type, sn.current_stock, sn.reorder_point,
                   sn.suggested_order_quantity, sn.priority, "active", now, none, none⟩])
    ∧ (∀ (alerts : List AlertRow) (sn : AlertSnap) (now : Nat),
        findActiveAlertId alerts mid pid = none →
          upsertAlert alerts mid pid sn now
            = alerts ++ [⟨freshAlertId alerts, mid, pid, sn.alert_type, sn.current_stock,
                sn.reorder_point, sn.suggested_order_quantity, sn.priority, "active",
                now, none, none⟩]) := by
  refine ⟨?_, ?_, ?_⟩
  · intro s ops
    induction ops generalizing s with
    | nil => intro h; exact h
    | cons op ops ih =>
      intro h
      rw [List.foldl_cons]
      exact ih (applyOp s op) (applyOp_activeCount_le s op mid pid h)
  · intro alerts sn now i hfind
    simp only [upsertAlert, hfind]
  · intro alerts sn now hfind
    simp only [upsertAlert, hfind]
    have hfilter : (alerts.filter (fun a => a.id != freshAlertId alerts)) = alerts := by
      apply List.filter_eq_self.mpr
      intro a ha
      simpa using freshAlertId_ne alerts a ha
    rw [hfilter]

/-- Witness for C2 at concrete inputs: two sweep evaluations and one
usage evaluation starting from the empty state, a replacing upsert on a
one-row table, and an inserting upsert on an empty table. -/
theorem active_alert_upsert_invariant_witness :
    activeCount (([EvalOp.sweep 1 1 0 5, EvalOp.usage ⟨1, 1, 5, 1⟩ 0 6,
        EvalOp.sweep 1 1 0 7].foldl applyOp emptyState).reorder_alerts) 1 1 ≤ 1
    ∧ upsertAlert [alertRowA] 1 1 snapA 7
        = [alertRowA].filter (fun a => a.id != 1)
          ++ [⟨1, 1, 1, snapA.alert_type, snapA.current_stock, snapA.reorder_point,
               snapA.suggested_order_quantity, snapA.priority, "active", 7, none, none⟩]
    ∧ upsertAlert [] 1 1 snapA 7
        = [] ++ [⟨freshAlertId [], 1, 1, snapA.alert_type, snapA.current_stock,
            snapA.reorder_point, snapA.suggested_order_quantity, snapA.priority,
            "active", 7, none, none⟩] :=
  ⟨(active_alert_upsert_invariant 1 1).1 emptyState _ (by decide),
   (active_alert_upsert_invariant 1 1).2.1 [alertRowA] snapA 7 1 (by decide),
   (active_alert_upsert_invariant 1 1).2.2 [] snapA 7 (by decide)⟩

lemma logUsage_mid_deliveries (s : DBState) (req : UsageRequest) (day : Nat) :
    (logUsageStockUpdate (logUsageInsert s req day) req.material_id
        req.quantity_used).material_deliveries = s.material_deliveries := by
  unfold logUsageStockUpdate
  split <;> rfl

/-- C5.  A (material, project) pair with zero delivery rows never gets a
reorder alert: the inline usage-logging evaluation leaves the alert table
unchanged, and the per-pair sweep iteration is a no-op, regardless of how
much usage or reservation volume the pair carries. -/
theorem no_alert_without_delivery (s : DBState) (req : UsageRequest)
    (day now cutoff now2 : Nat)
    (h : deliveriesCountPair s req.material_id req.project_id = 0) :
    ((log_material_usage s req day now).state).reorder_alerts = s.reorder_alerts
    ∧ sweepPairStep s req.material_id req.project_id cutoff now2 = s := by
  constructor
  · unfold log_material_usage
    split
    · rfl
    · split
      · rfl
      · set s2 := logUsageStockUpdate (logUsageInsert s req day) req.material_id
          req.quantity_used with hs2
        have halerts : s2.reorder_alerts = s.reorder_alerts := by
          rw [hs2, logUsageStockUpdate_alerts]
          rfl
        have hd2 : deliveriesCountPair s2 req.material_id req.project_id = 0 := by
          unfold deliveriesCountPair at h ⊢
          rw [hs2, logUsage_mid_deliveries]
          exact h
        show logUsageAlertCheck s2 req.material_id req.project_id now = s.reorder_alerts
        unfold logUsageAlertCheck
        rw [hd2]
        simpa using halerts
  · unfold sweepPairStep
    rw [h]
    simp

/-- Witness for C5: on `stateC5` (one usage row of 50, no deliveries)
neither evaluation path touches the alert table. -/
theorem no_alert_without_delivery_witness :
    ((log_material_usage stateC5 ⟨1, 1, 50, 1⟩ 0 0).state).reorder_alerts
        = stateC5.reorder_alerts
    ∧ sweepPairStep stateC5 1 1 0 0 = stateC5 :=
  no_alert_without_delivery stateC5 ⟨1, 1, 50, 1⟩ 0 0 0 0 (by decide)

/-- C8.  For a valid usage request on an existing material, the usage
row is always appended to the ledger; the warehouse-level `current_stock`
is decremented by the logged quantity only when at least one delivery
(for any project) exists for the material, and is left untouched — so it
can never be driven negative by usage — when the material has zero
deliveries; the delivery ledger and materials table are never written. -/
theorem logUsage_conditional_stock_decrement (s : DBState) (req : UsageRequest)
    (day now : Nat) (mat : Material)
    (h1 : req.project_id ≠ 0) (h2 : req.material_id ≠ 0)
    (h3 : req.quantity_used ≠ 0) (h4 : req.logged_by ≠ 0)
    (hmat : s.materials.find? (fun m => m.id == req.material_id) = some mat) :
    ((log_material_usage s req day now).state).material_usage
        = s.material_usage ++ [⟨req.material_id, req.project_id, day, req.quantity_used⟩]
    ∧ (deliveriesCountAny s req.material_id = 0 →
        ((log_material_usage s req day now).state).inventory = s.inventory
        ∧ currentStockOf ((log_material_usage s req day now).state) req.material_id
            = currentStockOf s req.material_id)
    ∧ (0 < deliveriesCountAny s req.material_id →
        ((log_material_usage s req day now).state).inventory
          = s.inventory.map (fun r =>
              if r.material_id == req.material_id then
                { r with current_stock := r.current_stock - req.quantity_used }
              else r))
    ∧ ((log_material_usage s req day now).state).material_deliveries = s.material_deliveries
    ∧ ((log_material_usage s req day now).state).materials = s.materials
    ∧ (log_material_usage s req day now).response = .ok (req.quantity_used * mat.unit_cost) := by
  have hcond : (req.project_id == 0 || req.material_id == 0 || req.quantity_used == 0
      || req.logged_by == 0) = false := by
    simp [h1, h2, h3, h4]
  have hstate : log_material_usage s req day now
      = ⟨logUsageFinalState s req day now, .ok (req.quantity_used * mat.unit_cost)⟩ := by
    unfold log_material_usage
    rw [hcond, hmat]
    rfl
  rw [hstate]
  have hfs : (LogResult.mk (logUsageFinalState s req day now)
      (.ok (req.quantity_used * mat.unit_cost))).state = logUsageFinalState s req day now := rfl
  refine ⟨?_, ?_, ?_, ?_, ?_, rfl⟩
  · show (logUsageFinalState s req day now).material_usage = _
    simp only [logUsageFinalState, logUsageStockUpdate]
    split <;> rfl
  · intro hz
    have hz1 : deliveriesCountAny (logUsageInsert s req day) req.material_id = 0 := hz
    constructor
    · show (logUsageFinalState s req day now).inventory = s.inventory
      simp only [logUsageFinalState, logUsageStockUpdate, hz1]
      rfl
    · have hinv : (logUsageFinalState s req day now).inventory = s.inventory := by
        simp only [logUsageFinalState, logUsageStockUpdate, hz1]
        rfl
      show currentStockOf (logUsageFinalState s req day now) req.material_id
          = currentStockOf s req.material_id
      unfold currentStockOf
      rw [hinv]
  · intro hp
    have hp1 : 0 < deliveriesCountAny (logUsageInsert s req day) req.material_id := hp
    show (logUsageFinalState s req day now).inventory = _
    simp only [logUsageFinalState, logUsageStockUpdate]
    rw [if_pos hp1]
    rfl
  · show (logUsageFinalState s req day now).material_deliveries = s.material_deliveries
    exact logUsage_mid_deliveries s req day
  · show (logUsageFinalState s req day now).materials = s.materials
    simp only [logUsageFinalState, logUsageStockUpdate]
    split <;> rfl

/-- Witness for C8 at `stateC8` (no deliveries): the usage row is
appended and the inventory — hence the warehouse stock of 7 — is
untouched. -/
theorem logUsage_conditional_stock_decrement_witness :
    ((log_material_usage stateC8 ⟨1, 1, 3, 1⟩ 0 0).state).material_usage
        = stateC8.material_usage ++ [⟨1, 1, 0, 3⟩]
    ∧ ((log_material_usage stateC8 ⟨1, 1, 3, 1⟩ 0 0).state).inventory = stateC8.inventory :=
  have h := logUsage_conditional_stock_decrement stateC8 ⟨1, 1, 3, 1⟩ 0 0 ⟨1, "Steel", 5⟩
    (by decide) (by decide) (by decide) (by decide) (by decide)
  ⟨h.1, (h.2.1 (by decide)).1⟩

/-- C9.  `log_material_delivery` with no unit cost supplied uses the
material's master `unit_cost`: it returns
`totalCost = quantityDelivered * masterUnitCost`, appends the delivery
ledger entry carrying that cost, increments the material's global
`current_stock` by the delivered quantity when an inventory row exists,
and creates a fresh inventory row holding the delivered quantity when
none exists. -/
theorem logDelivery_defaults_unit_cost (s : DBState) (req : DeliveryRequest) (mat : Material)
    (h1 : req.material_id ≠ 0) (h2 : req.quantity_delivered ≠ 0) (h3 : req.received_by ≠ 0)
    (hc : req.unit_cost = none)
    (hmat : s.materials.find? (fun m => m.id == req.material_id) = some mat) :
    (log_material_delivery s req).response = .ok (req.quantity_delivered * mat.unit_cost)
    ∧ ((log_material_delivery s req).state).material_deliveries
        = s.material_deliveries
          ++ [⟨req.material_id, req.project_id, req.quantity_delivered, mat.unit_cost⟩]
    ∧ (s.inventory.countP (fun r => r.material_id == req.material_id) = 0 →
        ((log_material_delivery s req).state).inventory
          = s.inventory ++ [⟨req.material_id, req.quantity_delivered, 0, 0⟩])
    ∧ (0 < s.inventory.countP (fun r => r.material_id == req.material_id) →
        ((log_material_delivery s req).state).inventory
          = s.inventory.map (fun r =>
              if r.material_id == req.material_id then
                { r with current_stock := r.current_stock + req.quantity_delivered }
              else r)) := by
  have hcond : (req.material_id == 0 || req.quantity_delivered == 0
      || req.received_by == 0) = false := by
    simp [h1, h2, h3]
  have huc : deliveryUnitCost s req = mat.unit_cost := by
    unfold deliveryUnitCost
    rw [hc]
    simp [hmat]
  have hres : log_material_delivery s req
      = ⟨logDeliveryInventoryUpdate (logDeliveryInsert s req) req.material_id
          req.quantity_delivered,
         .ok (req.quantity_delivered * deliveryUnitCost s req)⟩ := by
    unfold log_material_delivery
    rw [hcond]
    rfl
  rw [hres]
  refine ⟨by rw [huc], ?_, ?_, ?_⟩
  · show (logDeliveryInventoryUpdate (logDeliveryInsert s req) req.material_id
        req.quantity_delivered).material_deliveries = _
    have hd : (logDeliveryInventoryUpdate (logDeliveryInsert s req) req.material_id
        req.quantity_delivered).material_deliveries
        = s.material_deliveries ++ [⟨req.material_id, req.project_id,
            req.quantity_delivered, deliveryUnitCost s req⟩] := by
      unfold logDeliveryInventoryUpdate
      split <;> rfl
    rw [hd, huc]
  · intro hz
    have hz1 : ((logDeliveryInsert s req).inventory.countP
        (fun r => r.material_id == req.material_id)) = 0 := hz
    show (logDeliveryInventoryUpdate (logDeliveryInsert s req) req.material_id
        req.quantity_delivered).inventory = _
    unfold logDeliveryInventoryUpdate
    rw [hz1]
    rfl
  · intro hp
    have hne : ((logDeliveryInsert s req).inventory.countP
        (fun r => r.material_id == req.material_id)) ≠ 0 := Nat.pos_iff_ne_zero.mp hp
    show (logDeliveryInventoryUpdate (logDeliveryInsert s req) req.material_id
        req.quantity_delivered).inventory = _
    unfold logDeliveryInventoryUpdate
    rw [show (((logDeliveryInsert s req).inventory.countP
        (fun r => r.material_id == req.material_id)) == 0) = false by simpa using hne]
    rfl

/-- Witness for C9 at `stateC9`: delivering 4 units of material 2 with no
unit cost falls back to the master cost 7 (total 28) and creates the
missing inventory row with stock 4. -/
theorem logDelivery_defaults_unit_cost_witness :
    (log_material_delivery stateC9 ⟨2, some 1, 4, 1, none⟩).response = .ok (4 * (7 : Rat))
    ∧ ((log_material_delivery stateC9 ⟨2, some 1, 4, 1, none⟩).state).inventory
        = stateC9.inventory ++ [⟨2, 4, 0, 0⟩] :=
  have h := logDelivery_defaults_unit_cost stateC9 ⟨2, some 1, 4, 1, none⟩ ⟨2, "Conductor", 7⟩
    (by decide) (by decide) (by decide) rfl (by decide)
  ⟨h.1, h.2.2.1 (by decide)⟩

/-- C6 (code evaluation).  Acknowledging an alert id that does not exist
(id 999 against an empty alert table) affects 0 rows, leaves the state
unchanged and still returns the success message — the handler never
inspects `cur.rowcount`, so it silently succeeds instead of failing with
NotFound.  Acknowledging an existing alert does transition it to
`acknowledged` with acknowledger and timestamp stamped. -/
theorem acknowledge_nonexistent_silently_succeeds :
    (acknowledge_alert emptyState 999 7 0).rowcount = 0
    ∧ (acknowledge_alert emptyState 999 7 0).response = .ok "Alert acknowledged successfully"
    ∧ (acknowledge_alert emptyState 999 7 0).state = emptyState
    ∧ (acknowledge_alert ⟨[], [], [], [], [alertRowA]⟩ 1 7 9).state.reorder_alerts
        = [{ alertRowA with
              status := "acknowledged"
              acknowledged_by := some 7
              acknowledged_at := some 9 }]
    ∧ (acknowledge_alert ⟨[], [], [], [], [alertRowA]⟩ 1 7 9).rowcount = 1 := by
  refine ⟨rfl, rfl, rfl, by decide, rfl⟩

lemma applySteps_error_of_mem (steps : List SweepStep) (s : DBState) (e : String)
    (hmem : Except.error e ∈ steps) : ∃ e2, applySteps steps s = .error e2 := by
  induction steps generalizing s with
  | nil => cases hmem
  | cons st rest ih =>
    cases st with
    | error e1 => exact ⟨e1, rfl⟩
    | ok f =>
      rcases List.mem_cons.mp hmem with h | h
      · cases h
      · exact ih (f s) h

lemma applySteps_all_ok (fs : List (DBState → DBState)) (t : DBState) :
    applySteps (fs.map Except.ok) t = .ok (fs.foldl (fun u g => g u) t) := by
  induction fs generalizing t with
  | nil => rfl
  | cons f fs ih => simp [applySteps, ih]

/-- C7 (counterexample).  In `check_inventory_alerts` the whole material
loop and the final commit sit inside one `try`: when the first material's
iteration raises, the sweep returns with the state untouched, although
the second material's iteration alone would have written an alert — the
failure is not isolated and evaluation does not continue for the other
material. -/
theorem sweep_failure_aborts_remaining_materials :
    check_inventory_alerts_run [Except.error "database is locked", Except.ok sweepWriteStep]
        emptyState = emptyState
    ∧ check_inventory_alerts_run [Except.ok sweepWriteStep] emptyState ≠ emptyState := by
  constructor
  · rfl
  · decide

/-- C7 (amended).  The sweep's single top-level `try`/`except` gives
these semantics: if any material's iteration raises, the exception is
caught and logged at the top of `check_inventory_alerts` and the sweep
ends with the state unchanged (the uncommitted writes of all iterations
are discarded and no later material is evaluated); only a sweep in which
every iteration completes applies all iterations in order (and commits).
Failures inside `compute_project_threshold`/`compute_project_avg_daily`
are still contained by those helpers' own `except` clauses, which
fail open to 0. -/
theorem sweep_single_try_semantics :
    (∀ (steps : List SweepStep) (s : DBState) (e : String),
        Except.error e ∈ steps → check_inventory_alerts_run steps s = s)
    ∧ (∀ (fs : List (DBState → DBState)) (s : DBState),
        check_inventory_alerts_run (fs.map Except.ok) s
          = fs.foldl (fun t f => f t) s) := by
  constructor
  · intro steps s e hmem
    obtain ⟨e2, he⟩ := applySteps_error_of_mem steps s e hmem
    unfold check_inventory_alerts_run
    rw [he]
  · intro fs s
    unfold check_inventory_alerts_run
    rw [applySteps_all_ok]

/-- Witness for the amended C7: a sweep whose first iteration raises
leaves the empty state untouched, and the same iteration alone runs to
completion. -/
theorem sweep_single_try_semantics_witness :
    check_inventory_alerts_run [Except.error "database is locked", Except.ok sweepWriteStep]
        stateC1 = stateC1
    ∧ check_inventory_alerts_run ([sweepWriteStep].map Except.ok) stateC1
        = [sweepWriteStep].foldl (fun t f => f t) stateC1 :=
  ⟨sweep_single_try_semantics.1 _ stateC1 "database is locked" (List.mem_cons_self _ _),
   sweep_single_try_semantics.2 [sweepWriteStep] stateC1⟩

/-- When every gate of the sweep iteration passes, the iteration performs
exactly the upsert with the sweep snapshot. -/
lemma sweepPairStep_triggered (s : DBState) (mid pid cutoff now : Nat)
    (h1 : deliveriesCountPair s mid pid ≠ 0)
    (h2 : ¬(recentUsageCount s mid pid cutoff = 0 ∧ reservedStockOf s mid ≤ 0))
    (h3 : 0 < compute_project_threshold s mid pid 30 (1/10))
    (h4 : projectCurrentStock s mid pid < compute_project_threshold s mid pid 30 (1/10)) :
    sweepPairStep s mid pid cutoff now
      = { s with reorder_alerts :=
            upsertAlert s.reorder_alerts mid pid (sweepSnap s mid pid) now } := by
  have h1b : ¬((deliveriesCountPair s mid pid == 0) = true) := by simpa using h1
  have h2b : ¬(((recentUsageCount s mid pid cutoff == 0) = true)
      ∧ reservedStockOf s mid ≤ 0) := by simpa using h2
  have h3b : ¬(compute_project_threshold s mid pid 30 (1/10) ≤ 0) := not_le.mpr h3
  unfold sweepPairStep
  rw [if_neg h1b, if_neg h2b, if_neg h3b, if_pos h4]

/-- The upsert always leaves the freshly written row at the end of the
table. -/
lemma upsertAlert_getLast (alerts : List AlertRow) (mid pid : Nat) (sn : AlertSnap)
    (now : Nat) :
    ∃ i, (upsertAlert alerts mid pid sn now).getLast? = some
      ⟨i, mid, pid, sn.alert_type, sn.current_stock, sn.reorder_point,
       sn.suggested_order_quantity, sn.priority, "active", now, none, none⟩ := by
  unfold upsertAlert
  exact ⟨_, List.getLast?_concat _⟩

/-- C3 (counterexample).  On the usage-logging path the claim's
`alertType = stockout when stock <= 0` fails: logging a usage of 20
against a delivery of 10 leaves project stock -10 <= 0, yet the written
alert row has `alert_type = low_stock` (the call site hardcodes it),
priority `high`. -/
theorem logUsage_stockout_counterexample :
    ((log_material_usage stateC3pre reqC3 0 0).state).reorder_alerts
      = [⟨1, 1, 1, "low_stock", -10, 1716, 1580, "high", "active", 0, none, none⟩]
    ∧ (-10 : Rat) ≤ 0 ∧ ("low_stock" : String) ≠ "stockout" := by
  refine ⟨?_, by norm_num, by decide⟩
  have hres : log_material_usage stateC3pre reqC3 0 0
      = ⟨logUsageFinalState stateC3pre reqC3 0 0, .ok (reqC3.quantity_used * (5 : Rat))⟩ := by
    unfold log_material_usage
    rw [show (reqC3.project_id == 0 || reqC3.material_id == 0 || reqC3.quantity_used == 0
      || reqC3.logged_by == 0) = false from by decide]
    rw [show stateC3pre.materials.find? (fun m => m.id == reqC3.material_id)
      = some ⟨1, "Steel", 5⟩ from by decide]
    rfl
  rw [hres]
  show logUsageAlertCheck (logUsageStockUpdate (logUsageInsert stateC3pre reqC3 0)
      reqC3.material_id reqC3.quantity_used) reqC3.material_id reqC3.project_id 0 = _
  set s2 := logUsageStockUpdate (logUsageInsert stateC3pre reqC3 0)
    reqC3.material_id reqC3.quantity_used with hs2
  have hu : s2.material_usage = [⟨1, 1, 0, 20⟩] := by decide
  have hdel : s2.material_deliveries = [⟨1, some 1, 10, 5⟩] := by decide
  have ha0 : s2.reorder_alerts = [] := by decide
  have hl : materialDefaultsGet (materialName s2 1) 90 = 75 := by decide
  have hdays : usageDays s2 1 1 = [0] := by decide
  have hthr : compute_project_threshold s2 1 1 30 (1/10) = 1716 := by
    norm_num [compute_project_threshold, avgDailySql, hdays, dailyUsed, usageFor, hu,
      posUsage, hl]
  have hpcs : projectCurrentStock s2 1 1 = -10 := by
    norm_num [projectCurrentStock, deliveredSum, usedSum, usageFor, hu, hdel]
  have hsugg : suggestedQty s2 1 1 90 = 1580 := by
    norm_num [suggestedQty, compute_project_avg_daily, usageFor, hu, posUsage, hl]
  have hsnap : logSnap s2 1 1 = ⟨"low_stock", -10, 1716, 1580, "high"⟩ := by
    simp only [logSnap]
    rw [hpcs, hthr, hsugg]
    norm_num
  show logUsageAlertCheck s2 1 1 0 = _
  unfold logUsageAlertCheck
  rw [show (deliveriesCountPair s2 1 1 == 0) = false from by decide]
  have hcnd : projectCurrentStock s2 1 1 < compute_project_threshold s2 1 1 30 (1/10)
      ∧ 0 < compute_project_threshold s2 1 1 30 (1/10) := by
    rw [hpcs, hthr]
    norm_num
  rw [if_pos hcnd, ha0, hsnap]
  decide

/-- C3 (amended).  When alert evaluation finds
`projectCurrentStock < threshold` with `threshold > 0`:
on the periodic-sweep path the written row has
`alertType = stockout`/`low_stock` and `priority = critical`/`high`
according to whether the stock is ≤ 0; on the request-triggered
usage-logging path the written row always has `alertType = low_stock`
(the call site hardcodes it, even when stock ≤ 0) with
`priority = high`/`medium` according to whether the stock is ≤ 0. -/
theorem alert_classification_by_path :
    (∀ (s : DBState) (mid pid cutoff now : Nat),
        deliveriesCountPair s mid pid ≠ 0 →
        ¬(recentUsageCount s mid pid cutoff = 0 ∧ reservedStockOf s mid ≤ 0) →
        0 < compute_project_threshold s mid pid 30 (1/10) →
        projectCurrentStock s mid pid < compute_project_threshold s mid pid 30 (1/10) →
        ∃ i, ((sweepPairStep s mid pid cutoff now).reorder_alerts).getLast? = some
          ⟨i, mid, pid,
           if projectCurrentStock s mid pid ≤ 0 then "stockout" else "low_stock",
           projectCurrentStock s mid pid,
           compute_project_threshold s mid pid 30 (1/10),
           suggestedQty s mid pid 75,
           if projectCurrentStock s mid pid ≤ 0 then "critical" else "high",
           "active", now, none, none⟩)
    ∧ (∀ (s : DBState) (mid pid now : Nat),
        deliveriesCountPair s mid pid ≠ 0 →
        projectCurrentStock s mid pid < compute_project_threshold s mid pid 30 (1/10) →
        0 < compute_project_threshold s mid pid 30 (1/10) →
        ∃ i, (logUsageAlertCheck s mid pid now).getLast? = some
          ⟨i, mid, pid, "low_stock",
           projectCurrentStock s mid pid,
           compute_project_threshold s mid pid 30 (1/10),
           suggestedQty s mid pid 90,
           if projectCurrentStock s mid pid ≤ 0 then "high" else "medium",
           "active", now, none, none⟩) := by
  constructor
  · intro s mid pid cutoff now h1 h2 h3 h4
    rw [sweepPairStep_triggered s mid pid cutoff now h1 h2 h3 h4]
    obtain ⟨i, hi⟩ := upsertAlert_getLast s.reorder_alerts mid pid (sweepSnap s mid pid) now
    exact ⟨i, hi⟩
  · intro s mid pid now h1 h4 h3
    have h1b : (deliveriesCountPair s mid pid == 0) = false := by simpa using h1
    have hcnd : projectCurrentStock s mid pid < compute_project_threshold s mid pid 30 (1/10)
        ∧ 0 < compute_project_threshold s mid pid 30 (1/10) := ⟨h4, h3⟩
    unfold logUsageAlertCheck
    rw [h1b]
    simp only [Bool.false_eq_true, if_false]
    rw [if_pos hcnd]
    obtain ⟨i, hi⟩ := upsertAlert_getLast s.reorder_alerts mid pid (logSnap s mid pid) now
    exact ⟨i, hi⟩

/-- Witness for the amended C3 at `stateC3` (sweep path, stock -10,
threshold 1716). -/
theorem alert_classification_by_path_witness :
    ∃ i, ((sweepPairStep stateC3 1 1 0 9).reorder_alerts).getLast? = some
      ⟨i, 1, 1,
       if projectCurrentStock stateC3 1 1 ≤ 0 then "stockout" else "low_stock",
       projectCurrentStock stateC3 1 1,
       compute_project_threshold stateC3 1 1 30 (1/10),
       suggestedQty stateC3 1 1 75,
       if projectCurrentStock stateC3 1 1 ≤ 0 then "critical" else "high",
       "active", 9, none, none⟩ := by
  have hu : stateC3.material_usage = [⟨1, 1, 0, 20⟩] := rfl
  have hdel : stateC3.material_deliveries = [⟨1, some 1, 10, 5⟩] := rfl
  have hl : materialDefaultsGet (materialName stateC3 1) 90 = 75 := by decide
  have hdays : usageDays stateC3 1 1 = [0] := by decide
  have hthr : compute_project_threshold stateC3 1 1 30 (1/10) = 1716 := by
    norm_num [compute_project_threshold, avgDailySql, hdays, dailyUsed, usageFor, hu,
      posUsage, hl]
  have hpcs : projectCurrentStock stateC3 1 1 = -10 := by
    norm_num [projectCurrentStock, deliveredSum, usedSum, usageFor, hu, hdel]
  exact (alert_classification_by_path).1 stateC3 1 1 0 9 (by decide) (by decide)
    (by rw [hthr]; norm_num) (by rw [hpcs, hthr]; norm_num)

lemma sum_posUsage_eq_sum_filter (es : List UsageEntry) :
    (es.map (fun u => posUsage u.quantity_used)).sum
      = ((es.filter (fun u => 0 < u.quantity_used)).map (·.quantity_used)).sum := by
  induction es with
  | nil => rfl
  | cons e es ih =>
    by_cases h : 0 < e.quantity_used
    · have hp : posUsage e.quantity_used = e.quantity_used := by simp [posUsage, h]
      simp [List.filter_cons, h, hp, ih]
    · have hp : posUsage e.quantity_used = 0 := by simp [posUsage, h]
      simp [List.filter_cons, h, hp, ih]

lemma compute_project_avg_daily_eq_claimRate (s : DBState) (mid pid lb : Nat)
    (h : pid ≠ 0) :
    compute_project_avg_daily s mid pid lb = claimAvgRate s mid pid := by
  simp only [compute_project_avg_daily, claimAvgRate, beq_iff_eq, h, if_false]
  rw [sum_posUsage_eq_sum_filter]
  by_cases hn : (usageFor s mid pid).filter (fun u => 0 < u.quantity_used) = []
  · simp [hn]
  · have h1 : 0 < ((usageFor s mid pid).filter (fun u => 0 < u.quantity_used)).length :=
      List.length_pos.mpr hn
    have h2 : ((usageFor s mid pid).filter
        (fun u => 0 < u.quantity_used)).isEmpty = false := by
      simp [List.isEmpty_iff, hn]
    simp [h1, h2]

lemma claimAvgRate_nonneg (s : DBState) (mid pid : Nat) : 0 ≤ claimAvgRate s mid pid := by
  simp only [claimAvgRate]
  split
  · exact le_refl 0
  · apply div_nonneg
    · apply List.sum_nonneg
      intro x hx
      rcases List.mem_map.mp hx with ⟨u, hu, rfl⟩
      have hpos : 0 < u.quantity_used := by simpa using (List.mem_filter.mp hu).2
      exact le_of_lt hpos
    · exact Nat.cast_nonneg _

/-- C4.  The suggested order quantity written by both alert call sites is
`averageDailyRate * max(leadDays + 4, 0)`, where `averageDailyRate` is
`totalPositiveUsage / countOfPositiveUsageEntries` for the pair (an
average per logged entry, not per calendar day); and for two usage
histories with the same positive entries distributed over different
numbers of days (`stateC4a`: three entries of 10 on one day, `stateC4b`:
the same entries over three days) the suggested quantity is identical
while the threshold differs. -/
theorem suggested_qty_per_entry_average :
    (∀ (s : DBState) (mid pid dflt : Nat), pid ≠ 0 →
        suggestedQty s mid pid dflt
          = claimAvgRate s mid pid
            * ((max ((materialDefaultsGet (materialName s mid) dflt : Int) + 4) 0 : Int) : Rat))
    ∧ (∀ (s : DBState) (mid pid : Nat),
        (logSnap s mid pid).suggested_order_quantity = suggestedQty s mid pid 90
          ∧ (sweepSnap s mid pid).suggested_order_quantity = suggestedQty s mid pid 75)
    ∧ suggestedQty stateC4a 1 1 75 = suggestedQty stateC4b 1 1 75
    ∧ compute_project_threshold stateC4a 1 1 30 (1/10)
        ≠ compute_project_threshold stateC4b 1 1 30 (1/10) := by
  refine ⟨?_, fun s mid pid => ⟨rfl, rfl⟩, ?_, ?_⟩
  · intro s mid pid dflt h
    simp only [suggestedQty]
    rw [compute_project_avg_daily_eq_claimRate s mid pid 30 h]
    apply max_eq_left
    apply mul_nonneg (claimAvgRate_nonneg s mid pid)
    exact_mod_cast le_max_right ((materialDefaultsGet (materialName s mid) dflt : Int) + 4) 0
  · have hla : materialDefaultsGet (materialName stateC4a 1) 75 = 75 := by decide
    have hlb : materialDefaultsGet (materialName stateC4b 1) 75 = 75 := by decide
    have hua : stateC4a.material_usage = [⟨1, 1, 0, 10⟩, ⟨1, 1, 0, 10⟩, ⟨1, 1, 0, 10⟩] := rfl
    have hub : stateC4b.material_usage = [⟨1, 1, 0, 10⟩, ⟨1, 1, 1, 10⟩, ⟨1, 1, 2, 10⟩] := rfl
    have e1 : suggestedQty stateC4a 1 1 75 = 790 := by
      norm_num [suggestedQty, compute_project_avg_daily, usageFor, hua, posUsage, hla]
    have e2 : suggestedQty stateC4b 1 1 75 = 790 := by
      norm_num [suggestedQty, compute_project_avg_daily, usageFor, hub, posUsage, hlb]
    rw [e1, e2]
  · have hla : materialDefaultsGet (materialName stateC4a 1) 90 = 75 := by decide
    have hlb : materialDefaultsGet (materialName stateC4b 1) 90 = 75 := by decide
    have hua : stateC4a.material_usage = [⟨1, 1, 0, 10⟩, ⟨1, 1, 0, 10⟩, ⟨1, 1, 0, 10⟩] := rfl
    have hub : stateC4b.material_usage = [⟨1, 1, 0, 10⟩, ⟨1, 1, 1, 10⟩, ⟨1, 1, 2, 10⟩] := rfl
    have hdaysa : usageDays stateC4a 1 1 = [0] := by decide
    have hdaysb : usageDays stateC4b 1 1 = [0, 1, 2] := by decide
    have t1 : compute_project_threshold stateC4a 1 1 30 (1/10) = 2574 := by
      norm_num [compute_project_threshold, avgDailySql, hdaysa, dailyUsed, usageFor, hua,
        posUsage, hla]
    have t2 : compute_project_threshold stateC4b 1 1 30 (1/10) = 858 := by
      norm_num [compute_project_threshold, avgDailySql, hdaysb, dailyUsed, usageFor, hub,
        posUsage, hlb]
    rw [t1, t2]
    norm_num

/-- Witness for C4 at `stateC4a`. -/
theorem suggested_qty_per_entry_average_witness :
    suggestedQty stateC4a 1 1 75
      = claimAvgRate stateC4a 1 1
        * ((max ((materialDefaultsGet (materialName stateC4a 1) 75 : Int) + 4) 0 : Int) : Rat) :=
  (suggested_qty_per_entry_average).1 stateC4a 1 1 75 (by decide)
